import Mathlib

/-!
Verification development for the sampling engine of the
`educating-dip/score_based_model_baselines` repository.

The embedding works over exact rationals: a tensor of the sampling loop is a
`List ℚ` holding the flattened values of one batch element, elementwise torch
operations become `List.zipWith` / `List.map`, and the square root applied by
`torch.sqrt` / `.pow(0.5)` / `np.sqrt` is an explicit function parameter
`sq : ℚ → ℚ`, since floating-point square roots are oracles from the point of
view of the algebra the claims are about.  The score network, the SDE schedule
functions, the autograd gradient of a data-fit functional and the random
normal draws are likewise passed in as explicit arguments, mirroring how the
source treats them as external capabilities.
-/

namespace ScoreSDE

/-- The SDE descriptor as the samplers consume it: two schedule functions of
time.  The concrete VESDE/VPSDE classes live in `src/utils/sde.py`, which the
samplers only access through these two methods. -/
structure SDEmodel where
  marginal_prob_std : ℚ → ℚ
  diffusion_coeff : ℚ → ℚ

/-- A data-fit capability: the scalar loss `nloglik(x)` together with the
gradient that `torch.autograd.grad(outputs=nloglik(...), inputs=x)` returns.
Autograd is treated as an oracle producing `grad x`. -/
structure DataFit where
  loss : List ℚ → ℚ
  grad : List ℚ → List ℚ

/-- A forward-operator capability (`BaseRayTrafo`): the ray transform and its
adjoint, as used by `conj_grad_closure`. -/
structure RayTrafo where
  trafo : List ℚ → List ℚ
  trafo_adjoint : List ℚ → List ℚ

/-- Elementwise addition of two tensors (torch broadcasting of `+`). -/
def vadd (a b : List ℚ) : List ℚ := List.zipWith (fun p q => p + q) a b

/-- Elementwise subtraction of two tensors. -/
def vsub (a b : List ℚ) : List ℚ := List.zipWith (fun p q => p - q) a b

/-- Scalar times tensor. -/
def smul (c : ℚ) (v : List ℚ) : List ℚ := v.map (fun a => c * a)

/-- Sum of squares of the entries of a flattened tensor; `torch.norm` of the
flattened tensor is `sq (sumSq v)`. -/
def sumSq (v : List ℚ) : ℚ := (v.map (fun a => a * a)).sum

/-- Embedding of `Euler_Maruyama_VE_sde_predictor` from
`src/samplers/utils.py`.  Arguments follow the source; `sq` is the square
root oracle and `z` the `torch.randn_like(x)` draw.  The assert on line 42 of
the source is modelled by returning `none` before any numeric work; the
returned pair is `(x, x_mean)` exactly as in the source's `return` line. -/
def Euler_Maruyama_VE_sde_predictor
    (sq : ℚ → ℚ) (score : List ℚ → ℚ → List ℚ) (sde : SDEmodel)
    (x : List ℚ) (time_step : ℚ) (step_size : ℚ)
    (nloglik : Option DataFit) (datafitscale : Option ℚ) (penalty : Option ℚ)
    (aTweedy : Bool) (z : List ℚ) : Option (List ℚ × List ℚ) :=
  if nloglik.isSome ∧ (datafitscale.isNone ∨ penalty.isNone) then none
  else
    let s := score x time_step
    let diffusion := sde.diffusion_coeff time_step
    let eta := diffusion ^ 2 * step_size
    let update := smul eta s
    let x_mean := vadd x update
    let x_mean :=
      match nloglik with
      | none => x_mean
      | some d =>
          let std := sde.marginal_prob_std time_step
          let xhat0 := vadd x (smul (std ^ 2) s)
          let loss := d.loss (if aTweedy then xhat0 else x)
          let nloglik_grad := d.grad x
          let datafit := smul eta nloglik_grad
          let dfs := if aTweedy then loss⁻¹ else datafitscale.getD 0
          vsub x_mean (datafit.map (fun di => penalty.getD 0 * di * dfs))
    let noise := smul (sq eta) z
    some (vadd x_mean noise, x_mean)

/-- One iteration of the loop body of `Langevin_VE_sde_corrector`
(`src/samplers/utils.py`, lines 79-89), for a batch of size one: the mean over
the batch of the per-sample flattened norms is then the norm of the single
sample, `sq (sumSq overall_grad)`, and `np.sqrt(np.prod(x.shape[1:]))` is
`sq` of the number of entries of the flattened sample. -/
def langevin_step
    (sq : ℚ → ℚ) (score : List ℚ → ℚ → List ℚ)
    (x : List ℚ) (time_step : ℚ)
    (nloglik : Option DataFit) (datafitscale : ℚ) (penalty : ℚ)
    (snr : ℚ) (z : List ℚ) : List ℚ :=
  let s := score x time_step
  let overall_grad :=
    match nloglik with
    | none => s
    | some d => vsub s ((d.grad x).map (fun gi => penalty * gi * datafitscale))
  let overall_grad_norm := sq (sumSq overall_grad)
  let noise_norm := sq ((x.length : ℚ))
  let langevin_step_size := 2 * (snr * noise_norm / overall_grad_norm) ^ 2
  vadd (vadd x (smul langevin_step_size overall_grad)) (smul (sq (2 * langevin_step_size)) z)

/-- Embedding of `Langevin_VE_sde_corrector` from `src/samplers/utils.py`.
The assert on line 78 is modelled by returning `none`; the loop over
`corrector_steps` is a fold of `langevin_step`, with `z k` the
`torch.randn_like(x)` draw of iteration `k`.  The `sde` argument is accepted
and unused, exactly as in the source. -/
def Langevin_VE_sde_corrector
    (sq : ℚ → ℚ) (score : List ℚ → ℚ → List ℚ) (sde : SDEmodel)
    (x : List ℚ) (time_step : ℚ)
    (nloglik : Option DataFit) (datafitscale : Option ℚ) (penalty : Option ℚ)
    (corrector_steps : ℕ) (snr : ℚ) (z : ℕ → List ℚ) : Option (List ℚ) :=
  if nloglik.isSome ∧ (datafitscale.isNone ∨ penalty.isNone) then none
  else
    some ((List.range corrector_steps).foldl
      (fun xc k =>
        langevin_step sq score xc time_step nloglik
          (datafitscale.getD 0) (penalty.getD 0) snr (z k)) x)

/-- Embedding of `conj_grad_closure` from `src/samplers/utils.py`: the
matrix-vector product `eps·Aᵗ(A x) + x` handed to the linear solver.  The
reshape/transpose bookkeeping of the source maps the flattened batch-one
column to the image tensor and back and does not change the values. -/
def conj_grad_closure (x : List ℚ) (ray_trafo : RayTrafo) (eps : ℚ) : List ℚ :=
  vadd (smul eps (ray_trafo.trafo_adjoint (ray_trafo.trafo x))) x

/-- Modelled from the spec: the matrix-free conjugate-gradient solver
`linear_cg` (§4.4) is imported by `src/samplers/utils.py` from a module that
is not among the provided source files.  The spec describes a standard CG
iteration on the system given by the matrix-vector-product closure; on a
one-dimensional system with a linear closure `f` (so `f v = m·v` with
`m = f [1]`), CG reaches the exact solution `b / m` in one step, which is what
this model returns.  The initial guess is irrelevant for the solution. -/
def linear_cg_exact1 (matmul_closure : List ℚ → List ℚ) (rhs : List ℚ)
    (initial_guess : List ℚ) : List ℚ :=
  let _ := initial_guess
  [rhs.headI / (matmul_closure [1]).headI]

/-- Embedding of `decomposed_diffusion_sampling_VE_sde_predictor` from
`src/samplers/utils.py`.  `linear_cg` is passed in as a deterministic solver
capability (closure, right-hand side, initial guess); `conj_grad_closure_fn`
is the already-partially-applied matrix-vector closure, and `z` the
`torch.randn_like(x)` draw.  The source overwrites `datafitscale` with the
place-holder `1.` before any use, which the shadowing `let` mirrors. -/
def decomposed_diffusion_sampling_VE_sde_predictor
    (sq : ℚ → ℚ) (score : List ℚ → ℚ → List ℚ) (sde : SDEmodel)
    (x : List ℚ) (rhs : List ℚ) (time_step : ℚ)
    (linear_cg : (List ℚ → List ℚ) → List ℚ → List ℚ → List ℚ)
    (conj_grad_closure_fn : List ℚ → List ℚ)
    (eta : ℚ) (step_size : ℚ)
    (datafitscale : Option ℚ) (z : List ℚ) : List ℚ × List ℚ :=
  let _datafitscale := (1 : ℚ)
  let s := score x time_step
  let std := sde.marginal_prob_std time_step
  let xhat0 := vadd x (smul (std ^ 2) s)
  let xhat := linear_cg conj_grad_closure_fn
    (vadd (smul (1 / 100000) rhs) xhat0) xhat0
  let std_t := sde.marginal_prob_std time_step
  let std_tminus1 := sde.marginal_prob_std (time_step - step_size)
  let beta := 1 - std_tminus1 ^ 2 / std_t ^ 2
  let noise_deterministic :=
    smul (-(std_tminus1 * std_t * sq (1 - beta ^ 2 * eta ^ 2))) s
  let noise_stochastic := smul (std_tminus1 * eta * beta) z
  (vadd (vadd xhat noise_deterministic) noise_stochastic, xhat)

/-- Embedding of `chain_simple_init` from `src/samplers/utils.py` for one
batch element: `filtbackproj + randn * marginal_prob_std(t)`. -/
def chain_simple_init (sde : SDEmodel) (filtbackproj : List ℚ) (t : ℚ)
    (z : List ℚ) : List ℚ :=
  vadd filtbackproj (smul (sde.marginal_prob_std t) z)

/-- The spec's regularized normal-equation system (§4.2, decomposed
predictor, step 2), written from the spec's words: `x̂` solves
`(λI + AᵗA) x̂ = λ·Aᵗy + x̂0`.  Used to compare the spec's system against
the one the code actually hands to the solver. -/
def spec_normal_system (lam : ℚ) (rt : RayTrafo) (y xhat0 xhat : List ℚ) : Prop :=
  vadd (smul lam xhat) (rt.trafo_adjoint (rt.trafo xhat)) =
    vadd (smul lam (rt.trafo_adjoint y)) xhat0

/-- Python keyword-call semantics, reduced to what decides a `TypeError`:
a call succeeds only if every supplied keyword argument names a declared
parameter of the callee. -/
def python_keyword_call (params : List String) (kwargs : List String) :
    Except String Unit :=
  if kwargs.all (fun k => params.contains k) then Except.ok ()
  else Except.error "TypeError"

/-- The parameter names of `conj_grad_closure` (`src/samplers/utils.py`,
line 153), in source order. -/
def conj_grad_closure_params : List String := ["x", "ray_trafo", "eps"]

/-- The keyword arguments bound by `functools.partial(conj_grad_closure, ...)`
in `get_standard_sampler` for method `dds` (`src/utils/exp_utils.py`,
lines 108-112). -/
def dds_conj_grad_bound_kwargs : List String := ["ray_trafo", "gamma"]

/-- The forward operator that multiplies every entry by `a`; its adjoint is
itself.  Used to instantiate the decomposed predictor on scalar systems. -/
def scalarTrafo (a : ℚ) : RayTrafo :=
  ⟨List.map (fun v => a * v), List.map (fun v => a * v)⟩

/-- Square-root oracle used in concrete evaluations (its value never matters
for the properties evaluated there). -/
def sqId : ℚ → ℚ := fun q => q

/-- Score oracle returning the zero image, used in concrete evaluations. -/
def scoreZero : List ℚ → ℚ → List ℚ := fun _ _ => [0]

/-- Identity score oracle (returns the state), used in concrete evaluations. -/
def scoreCopy : List ℚ → ℚ → List ℚ := fun v _ => v

/-- SDE descriptor whose two schedule functions are constantly one, used in
concrete evaluations. -/
def sdeOne : SDEmodel := ⟨fun _ => 1, fun _ => 1⟩

/-- Data-fit oracle with constant loss `1` and constant gradient `[1]`, used
in concrete evaluations. -/
def dfOne : DataFit := ⟨fun _ => 1, fun _ => [1]⟩

theorem vadd_all_zero (x : List ℚ) : ∀ (y : List ℚ), (∀ a ∈ y, a = 0) →
    x.length ≤ y.length → vadd x y = x := by
  induction x with
  | nil => intro y _ _; rfl
  | cons a x ih =>
      intro y hy hl
      cases y with
      | nil => simp at hl
      | cons b y =>
          have hb : b = 0 := hy b (List.mem_cons_self b y)
          have hx : vadd x y = x :=
            ih y (fun c hc => hy c (List.mem_cons_of_mem _ hc))
              (Nat.le_of_succ_le_succ hl)
          simp only [vadd, List.zipWith_cons_cons] at hx ⊢
          rw [hb, add_zero, hx]

theorem vsub_all_zero (x : List ℚ) : ∀ (y : List ℚ), (∀ a ∈ y, a = 0) →
    x.length ≤ y.length → vsub x y = x := by
  induction x with
  | nil => intro y _ _; rfl
  | cons a x ih =>
      intro y hy hl
      cases y with
      | nil => simp at hl
      | cons b y =>
          have hb : b = 0 := hy b (List.mem_cons_self b y)
          have hx : vsub x y = x :=
            ih y (fun c hc => hy c (List.mem_cons_of_mem _ hc))
              (Nat.le_of_succ_le_succ hl)
          simp only [vsub, List.zipWith_cons_cons] at hx ⊢
          rw [hb, sub_zero, hx]

theorem smul_zero_eq_replicate (z : List ℚ) :
    smul 0 z = List.replicate z.length 0 := by
  induction z with
  | nil => rfl
  | cons a z ih => simp_all [smul, List.replicate_succ]

/-- Claim C1: with `use_tweedy_denoising = false` and no data-fit function,
the Euler-Maruyama predictor returns
`x_mean = x + score(x,t)·diffusion_coeff(t)²·step_size` and
`x_next = x_mean + sqrt(diffusion_coeff(t)²·step_size)·z` for the Gaussian
draw `z` (the pair is returned in source order `(x_next, x_mean)`). -/
theorem C1_euler_maruyama_plain (sq : ℚ → ℚ) (score : List ℚ → ℚ → List ℚ)
    (sde : SDEmodel) (x : List ℚ) (t step_size : ℚ) (z : List ℚ) :
    Euler_Maruyama_VE_sde_predictor sq score sde x t step_size none none none false z =
      some
        (vadd (vadd x (smul ((sde.diffusion_coeff t) ^ 2 * step_size) (score x t)))
           (smul (sq ((sde.diffusion_coeff t) ^ 2 * step_size)) z),
         vadd x (smul ((sde.diffusion_coeff t) ^ 2 * step_size) (score x t))) := rfl

/-- Claim C4: in both the Euler-Maruyama predictor and the Langevin
corrector, supplying a data-fit function while omitting `datafitscale` or
`penalty` fails the precondition check before any numeric update: the call
produces no state. -/
theorem C4_missing_scale_is_fatal (sq : ℚ → ℚ) (score : List ℚ → ℚ → List ℚ)
    (sde : SDEmodel) (x : List ℚ) (t step_size : ℚ)
    (nloglik : Option DataFit) (datafitscale penalty : Option ℚ)
    (aT : Bool) (z : List ℚ) (n : ℕ) (snr : ℚ) (zf : ℕ → List ℚ)
    (d : DataFit) (h1 : nloglik = some d)
    (h2 : datafitscale = none ∨ penalty = none) :
    Euler_Maruyama_VE_sde_predictor sq score sde x t step_size nloglik
        datafitscale penalty aT z = none ∧
    Langevin_VE_sde_corrector sq score sde x t nloglik datafitscale penalty
        n snr zf = none := by
  subst h1
  have hc : (some d).isSome ∧ (datafitscale.isNone ∨ penalty.isNone) := by
    refine ⟨rfl, ?_⟩
    rcases h2 with h2 | h2 <;> subst h2 <;> simp
  constructor
  · unfold Euler_Maruyama_VE_sde_predictor; rw [if_pos hc]
  · unfold Langevin_VE_sde_corrector; rw [if_pos hc]

theorem C4_witness :
    ((some dfOne : Option DataFit) = some dfOne ∧
      ((none : Option ℚ) = none ∨ (some 1 : Option ℚ) = none)) ∧
    (Euler_Maruyama_VE_sde_predictor sqId scoreZero sdeOne [0] 0 1
        (some dfOne) none (some 1) false [0] = none ∧
     Langevin_VE_sde_corrector sqId scoreZero sdeOne [0] 0
        (some dfOne) none (some 1) 1 (16 / 100) (fun _ => [0]) = none) :=
  ⟨⟨rfl, Or.inl rfl⟩,
   C4_missing_scale_is_fatal sqId scoreZero sdeOne [0] 0 1 (some dfOne)
     none (some 1) false [0] 1 (16 / 100) (fun _ => [0]) dfOne rfl (Or.inl rfl)⟩

/-- Claim C5: with `step_size = 0` the Euler-Maruyama predictor applies no
drift and no data-fit correction: whenever the call returns, its `x_mean`
component is the input `x`.  The hypotheses state that the score and gradient
oracles are shape-correct, as torch guarantees for real tensors. -/
theorem C5_zero_step_size (sq : ℚ → ℚ) (score : List ℚ → ℚ → List ℚ)
    (sde : SDEmodel) (x : List ℚ) (t : ℚ)
    (nloglik : Option DataFit) (datafitscale penalty : Option ℚ)
    (aT : Bool) (z : List ℚ)
    (hs : x.length ≤ (score x t).length)
    (hg : ∀ d, nloglik = some d → x.length ≤ (d.grad x).length)
    (hok : ¬ (nloglik.isSome ∧ (datafitscale.isNone ∨ penalty.isNone))) :
    (Euler_Maruyama_VE_sde_predictor sq score sde x t 0 nloglik
        datafitscale penalty aT z).map Prod.snd = some x := by
  unfold Euler_Maruyama_VE_sde_predictor
  rw [if_neg hok]
  have hx : vadd x (smul (sde.diffusion_coeff t ^ 2 * 0) (score x t)) = x := by
    rw [mul_zero]
    exact vadd_all_zero x _ (by simp [smul]) (by simpa [smul] using hs)
  cases nloglik with
  | none => simpa using hx
  | some d =>
      simp only [Option.map_some', Option.some.injEq]
      rw [mul_zero] at hx ⊢
      rw [hx]
      refine vsub_all_zero x _ ?_ ?_
      · intro c hc
        simp only [smul, List.map_map, List.mem_map] at hc
        obtain ⟨gi, _, rfl⟩ := hc
        simp
      · simpa [smul] using hg d rfl

theorem C5_witness :
    (([3] : List ℚ).length ≤ (scoreCopy [3] 0).length ∧
      ¬ ((none : Option DataFit).isSome ∧
          ((none : Option ℚ).isNone ∨ (none : Option ℚ).isNone))) ∧
    (Euler_Maruyama_VE_sde_predictor sqId scoreCopy sdeOne [3] 0 0 none
        none none false [5]).map Prod.snd = some [3] :=
  ⟨⟨le_refl 1, by simp⟩,
   C5_zero_step_size sqId scoreCopy sdeOne [3] 0 none none none false [5]
     (le_refl 1) (fun d h => by cases h) (by simp)⟩

/-- Claim C3 counterexample: at a concrete input with
`eta = diffusion_coeff(t)²·step_size = 2`, penalty `1`, datafitscale `1` and
data-fit gradient `[1]`, the code's `x_mean` is `[-2]`, not the `[-1]` that
subtracting only the penalty- and datafitscale-scaled gradient would give:
the correction is additionally scaled by `eta`. -/
theorem C3_counterexample :
    (Euler_Maruyama_VE_sde_predictor sqId scoreZero sdeOne [0] 0 2
        (some dfOne) (some 1) (some 1) false [0]).map Prod.snd ≠ some [-1] := by
  norm_num [Euler_Maruyama_VE_sde_predictor, sqId, scoreZero, sdeOne, dfOne,
    vadd, vsub, smul]

/-- Claim C3 (amended): the quantity subtracted from `x_mean` is the data-fit
gradient scaled by the `penalty` coefficient, the `datafitscale` factor AND
the step factor `eta = diffusion_coeff(t)²·step_size`; in Tweedy mode
`datafitscale` is replaced by the reciprocal of the current data-fit loss
(evaluated at the Tweedy estimate `x̂0`). -/
theorem C3_datafit_correction (sq : ℚ → ℚ) (score : List ℚ → ℚ → List ℚ)
    (sde : SDEmodel) (x : List ℚ) (t step_size : ℚ)
    (d : DataFit) (dfs p : ℚ) (aT : Bool) (z : List ℚ) :
    Euler_Maruyama_VE_sde_predictor sq score sde x t step_size (some d)
        (some dfs) (some p) aT z =
      (let s := score x t
       let eta := (sde.diffusion_coeff t) ^ 2 * step_size
       let xhat0 := vadd x (smul ((sde.marginal_prob_std t) ^ 2) s)
       let dfs2 := if aT then (d.loss (if aT then xhat0 else x))⁻¹ else dfs
       let x_mean := vsub (vadd x (smul eta s))
          ((d.grad x).map (fun gi => p * (eta * gi) * dfs2))
       some (vadd x_mean (smul (sq eta) z), x_mean)) := by
  simp only [Euler_Maruyama_VE_sde_predictor, Option.isSome_some,
    Option.isNone_some, or_self, and_false, if_false, Option.getD_some,
    smul, List.map_map]
  rfl

/-- Claim C2 counterexample: with the forward operator "multiply by 2",
regularization weight `λ = 1e-5`, measurement `y = 0` and Tweedy estimate
`x̂0 = [1]`, the estimate the decomposed predictor obtains from the solver is
`[25000/25001]` (it solves `(I + λAᵗA)x̂ = 1e-5·Aᵗy + x̂0`), which does not
satisfy the spec's system `(λI + AᵗA)x̂ = λ·Aᵗy + x̂0` (whose solution is
`[100000/400001]`). -/
theorem C2_counterexample :
    ¬ spec_normal_system (1 / 100000) (scalarTrafo 2) [0]
        (vadd [1] (smul ((sdeOne.marginal_prob_std 0) ^ 2) (scoreZero [1] 0)))
        (decomposed_diffusion_sampling_VE_sde_predictor sqId scoreZero sdeOne
          [1] [0] 0 linear_cg_exact1
          (fun v => conj_grad_closure v (scalarTrafo 2) (1 / 100000))
          0 0 none [0]).2 := by
  norm_num [spec_normal_system, decomposed_diffusion_sampling_VE_sde_predictor,
    linear_cg_exact1, conj_grad_closure, scalarTrafo, sqId, scoreZero, sdeOne,
    vadd, smul]

/-- Claim C2 (amended): on a one-dimensional system with forward operator
"multiply by `a`", the estimate `x̂` returned by the decomposed predictor via
the conjugate-gradient solver is the solution of
`(I + ε·AᵗA) x̂ = c·Aᵗy + x̂0`, where `ε` is the closure's regularization
parameter and `c = 1e-5` is a hardcoded constant scaling the right-hand side,
distinct from `ε` (they agree only when `ε` keeps its default `1e-5`). -/
theorem C2_dds_solved_system (sq : ℚ → ℚ) (score : List ℚ → ℚ → List ℚ)
    (sde : SDEmodel) (x0 r t eta step_size a eps s0 : ℚ)
    (dfs : Option ℚ) (z : List ℚ)
    (hscore : score [x0] t = [s0])
    (h : 1 + eps * a ^ 2 ≠ 0) :
    conj_grad_closure
      (decomposed_diffusion_sampling_VE_sde_predictor sq score sde [x0] [r] t
        linear_cg_exact1 (fun v => conj_grad_closure v (scalarTrafo a) eps)
        eta step_size dfs z).2
      (scalarTrafo a) eps =
    vadd (smul (1 / 100000) [r])
      (vadd [x0] (smul ((sde.marginal_prob_std t) ^ 2) (score [x0] t))) := by
  simp only [decomposed_diffusion_sampling_VE_sde_predictor, linear_cg_exact1,
    conj_grad_closure, scalarTrafo, hscore, vadd, smul, List.map_cons,
    List.map_nil, List.zipWith_cons_cons, List.zipWith_nil_right,
    List.headI_cons]
  have hm : eps * (a * (a * 1)) + 1 ≠ 0 := by
    intro hz; apply h; linear_combination hz
  have hm2 : (100000 : ℚ) + eps * a ^ 2 * 100000 ≠ 0 := by
    intro hz; apply h; linear_combination hz / 100000
  field_simp [hm2]
  have hD : ((100000 : ℚ) + eps * a ^ 2 * 100000)⁻¹ *
      (100000 + eps * a ^ 2 * 100000) = 1 := inv_mul_cancel₀ hm2
  linear_combination
    (r + 100000 * x0 + 100000 * (sde.marginal_prob_std t ^ 2 * s0)) * hD

theorem C2_dds_solved_system_witness :
    (scoreZero [1] 0 = [0] ∧ (1 : ℚ) + 1 / 100000 * 2 ^ 2 ≠ 0) ∧
    conj_grad_closure
      (decomposed_diffusion_sampling_VE_sde_predictor sqId scoreZero sdeOne
        [1] [0] 0 linear_cg_exact1
        (fun v => conj_grad_closure v (scalarTrafo 2) (1 / 100000))
        0 0 none [0]).2
      (scalarTrafo 2) (1 / 100000) =
    vadd (smul (1 / 100000) [0])
      (vadd [1] (smul ((sdeOne.marginal_prob_std 0) ^ 2) (scoreZero [1] 0))) :=
  ⟨⟨rfl, by norm_num⟩,
   C2_dds_solved_system sqId scoreZero sdeOne 1 0 0 0 0 2 (1 / 100000) 0
     none [0] rfl (by norm_num)⟩

/-- Claim C6: with stochasticity parameter `η = 0`, the decomposed predictor's
`x_next` does not depend on the Gaussian draw: two calls differing only in
the (equally shaped) noise return the same `x_next`. -/
theorem C6_dds_eta_zero_deterministic (sq : ℚ → ℚ)
    (score : List ℚ → ℚ → List ℚ) (sde : SDEmodel)
    (x rhs : List ℚ) (t : ℚ)
    (linear_cg : (List ℚ → List ℚ) → List ℚ → List ℚ → List ℚ)
    (closure : List ℚ → List ℚ) (step_size : ℚ) (dfs : Option ℚ)
    (z1 z2 : List ℚ) (h : z1.length = z2.length) :
    (decomposed_diffusion_sampling_VE_sde_predictor sq score sde x rhs t
        linear_cg closure 0 step_size dfs z1).1 =
    (decomposed_diffusion_sampling_VE_sde_predictor sq score sde x rhs t
        linear_cg closure 0 step_size dfs z2).1 := by
  simp only [decomposed_diffusion_sampling_VE_sde_predictor, mul_zero,
    zero_mul, smul_zero_eq_replicate, h]

theorem C6_dds_eta_zero_deterministic_witness :
    ([5] : List ℚ).length = ([7] : List ℚ).length ∧
    (decomposed_diffusion_sampling_VE_sde_predictor sqId scoreZero sdeOne
        [1] [0] 0 linear_cg_exact1 (fun v => v) 0 0 none [5]).1 =
    (decomposed_diffusion_sampling_VE_sde_predictor sqId scoreZero sdeOne
        [1] [0] 0 linear_cg_exact1 (fun v => v) 0 0 none [7]).1 :=
  ⟨rfl, C6_dds_eta_zero_deterministic sqId scoreZero sdeOne [1] [0] 0
    linear_cg_exact1 (fun v => v) 0 none [5] [7] rfl⟩

/-- Claim C7 counterexample: the claim takes the drift to be the score minus
the penalty-scaled data-fit gradient, without the `datafitscale` factor.  At
score `[0]`, gradient `[1]`, `penalty = 1`, `datafitscale = 2`, `snr = 1` and
zero noise, that drift would be `[-1]`, giving step size `2` and next state
`[-1]`; the source (line 83) also scales the gradient by `datafitscale`, so
the drift is `[-2]`, the step size `1/8` and the next state `[3/4]`. -/
theorem C7_counterexample :
    (let s := scoreZero [1] (0 : ℚ)
     let drift := vsub s ((dfOne.grad [1]).map (fun gi => (1 : ℚ) * gi))
     let step := 2 * ((1 : ℚ) * sqId ((([1] : List ℚ).length : ℚ)) /
        sqId (sumSq drift)) ^ 2
     Langevin_VE_sde_corrector sqId scoreZero sdeOne [1] 0 (some dfOne)
        (some 2) (some 1) 1 1 (fun _ => [0]) ≠
      some (vadd (vadd [1] (smul step drift)) (smul (sqId (2 * step)) [0]))) := by
  norm_num [Langevin_VE_sde_corrector, langevin_step, sqId, scoreZero, sdeOne,
    dfOne, vadd, vsub, smul, sumSq, List.range_succ, List.range_zero,
    List.foldl_append, List.foldl_cons, List.foldl_nil]

/-- Claim C7 (amended): each iteration of the Langevin corrector uses the
step size `2·(snr·sqrt(number of non-batch entries)/‖drift‖)²` — the drift
being the score minus the penalty- AND datafitscale-scaled data-fit gradient
when a data-fit function is present — and updates the state by
`x + step·drift + sqrt(2·step)·noise`. -/
theorem C7_langevin_adaptive_step (sq : ℚ → ℚ)
    (score : List ℚ → ℚ → List ℚ) (sde : SDEmodel)
    (x : List ℚ) (t : ℚ) (nloglik : Option DataFit)
    (datafitscale penalty : Option ℚ) (snr : ℚ) (z : ℕ → List ℚ) (n : ℕ) :
    Langevin_VE_sde_corrector sq score sde x t nloglik datafitscale penalty
        (n + 1) snr z =
      Option.map (fun xc =>
        let s := score xc t
        let drift :=
          match nloglik with
          | none => s
          | some d => vsub s ((d.grad xc).map
              (fun gi => penalty.getD 0 * gi * datafitscale.getD 0))
        let step := 2 * (snr * sq ((xc.length : ℚ)) / sq (sumSq drift)) ^ 2
        vadd (vadd xc (smul step drift)) (smul (sq (2 * step)) (z n)))
      (Langevin_VE_sde_corrector sq score sde x t nloglik datafitscale penalty
        n snr z) := by
  unfold Langevin_VE_sde_corrector
  by_cases hc : nloglik.isSome ∧ (datafitscale.isNone ∨ penalty.isNone)
  · rw [if_pos hc, if_pos hc]; rfl
  · rw [if_neg hc, if_neg hc]
    simp only [List.range_succ, List.foldl_append, List.foldl_cons,
      List.foldl_nil, Option.map_some']
    rfl

/-- Claim C8: `get_standard_sampler` (method `dds`) partially applies
`conj_grad_closure` with a keyword argument named `gamma`, but the function's
parameters are `x`, `ray_trafo`, `eps`; by Python keyword-call semantics every
invocation of the assembled closure raises a `TypeError`. -/
theorem C8_dds_gamma_keyword_type_error :
    "gamma" ∈ dds_conj_grad_bound_kwargs ∧
    "gamma" ∉ conj_grad_closure_params ∧
    python_keyword_call conj_grad_closure_params dds_conj_grad_bound_kwargs =
      Except.error "TypeError" := by
  refine ⟨by simp [dds_conj_grad_bound_kwargs], by simp [conj_grad_closure_params], rfl⟩

/-- Claim C9: both components returned by the decomposed predictor are
independent of the `datafitscale` argument, which is unconditionally
overwritten by the place-holder before any use. -/
theorem C9_dds_datafitscale_irrelevant (sq : ℚ → ℚ)
    (score : List ℚ → ℚ → List ℚ) (sde : SDEmodel)
    (x rhs : List ℚ) (t : ℚ)
    (linear_cg : (List ℚ → List ℚ) → List ℚ → List ℚ → List ℚ)
    (closure : List ℚ → List ℚ) (eta step_size : ℚ)
    (dfs1 dfs2 : Option ℚ) (z : List ℚ) :
    decomposed_diffusion_sampling_VE_sde_predictor sq score sde x rhs t
        linear_cg closure eta step_size dfs1 z =
    decomposed_diffusion_sampling_VE_sde_predictor sq score sde x rhs t
        linear_cg closure eta step_size dfs2 z := rfl

/-- Claim C10 counterexample: with `corrector_steps = 0` but a data-fit
function supplied while `datafitscale` is absent, the corrector does not
return the state unchanged — the precondition check fails first and the call
produces no state at all. -/
theorem C10_counterexample :
    Langevin_VE_sde_corrector sqId scoreZero sdeOne [1] 0 (some dfOne)
        none none 0 (16 / 100) (fun _ => [0]) ≠ some [1] := by
  simp [Langevin_VE_sde_corrector]

/-- Claim C10 (amended): provided the data-fit precondition holds (no
data-fit function, or both `datafitscale` and `penalty` supplied), the
Langevin corrector with `corrector_steps = 0` returns the state unchanged. -/
theorem C10_zero_steps_identity (sq : ℚ → ℚ)
    (score : List ℚ → ℚ → List ℚ) (sde : SDEmodel)
    (x : List ℚ) (t : ℚ) (nloglik : Option DataFit)
    (datafitscale penalty : Option ℚ) (snr : ℚ) (z : ℕ → List ℚ)
    (h : ¬ (nloglik.isSome ∧ (datafitscale.isNone ∨ penalty.isNone))) :
    Langevin_VE_sde_corrector sq score sde x t nloglik datafitscale penalty
        0 snr z = some x := by
  unfold Langevin_VE_sde_corrector
  rw [if_neg h]
  rfl

theorem C10_zero_steps_identity_witness :
    (¬ ((none : Option DataFit).isSome ∧
        ((none : Option ℚ).isNone ∨ (none : Option ℚ).isNone))) ∧
    Langevin_VE_sde_corrector sqId scoreCopy sdeOne [3] 0 none none none
        0 (16 / 100) (fun _ => [1]) = some [3] :=
  ⟨by simp, C10_zero_steps_identity sqId scoreCopy sdeOne [3] 0 none none
    none (16 / 100) (fun _ => [1]) (by simp)⟩

end ScoreSDE
